import Mathlib

/-!
Verification development for the task-management frontend client.

Each definition in this file is a shallow embedding of a function or code
fragment of the repository (file and symbol named in its doc comment).
JavaScript numbers that are always nonnegative integers in the code are
modelled as Nat; fallible or thrown-error paths are modelled with Except;
JSON parsing of HTTP response bodies is modelled by an abstract
already-parsed field on the response record, since the client code only
ever branches on parse success and on the value of a few fields.
-/

namespace TaskMgmt

/-! ### Pagination window (components/task-list.tsx, TaskListComponent) -/

/-- An entry of the rendered page-number window: a page number or an
ellipsis marker. -/
inductive PageItem where
  | num : Nat → PageItem
  | dots : PageItem
deriving DecidableEq

/-- Models the JS expression Math.ceil(total / pageSize) for positive
pageSize, as computed in TaskListComponent. -/
def totalPagesOf (total pageSize : Nat) : Nat :=
  (total + pageSize - 1) / pageSize

/-- Models one iteration of the page-number loop in TaskListComponent
(task-list.tsx lines 269-282): push the number i when i is 1, the last
page, or within 2 of the current page; push an ellipsis at the positions
page-3 (when page-3 > 1) and page+3 (when page+3 < totalPages); otherwise
push nothing.  The JS comparisons on possibly-negative values (i >= page-2,
i = page-3 with page-3 > 1) are written in added form (page <= i+2,
i+3 = page with 4 < page) so that Nat subtraction is never used; over the
integers these are the same predicates. -/
def pageEntry (page totalPages i : Nat) : Option PageItem :=
  if i = 1 ∨ i = totalPages ∨ (page ≤ i + 2 ∧ i ≤ page + 2) then
    some (PageItem.num i)
  else if (i + 3 = page ∧ 4 < page) ∨ (i = page + 3 ∧ page + 3 < totalPages) then
    some PageItem.dots
  else
    none

/-- Models the pageNumbers array built by the for-loop over i = 1..totalPages
in TaskListComponent. -/
def pageNumbers (page totalPages : Nat) : List PageItem :=
  (List.range' 1 totalPages).filterMap (pageEntry page totalPages)

/-- Models the render pass of TaskListComponent (task-list.tsx lines
283-307): a stateful map with a lastWasEllipsis flag that drops an ellipsis
entry when the previous rendered entry was already an ellipsis. -/
def collapseEllipses : List PageItem → Bool → List PageItem
  | [], _ => []
  | PageItem.dots :: rest, true => collapseEllipses rest true
  | PageItem.dots :: rest, false => PageItem.dots :: collapseEllipses rest true
  | PageItem.num n :: rest, _ => PageItem.num n :: collapseEllipses rest false

/-- The full page-number window rendered by TaskListComponent for a given
current page, page size and total count: the loop-built list with
consecutive ellipses collapsed.  The spec calls this computePageWindow. -/
def computePageWindow (page pageSize total : Nat) : List PageItem :=
  collapseEllipses (pageNumbers page (totalPagesOf total pageSize)) false

/-! ### Preview eligibility (components/task-attachments.tsx) -/

/-- Models the JS call s.startsWith(p) on whole strings as a prefix test on
the character lists. -/
def strStartsWith (s p : String) : Bool :=
  p.toList.isPrefixOf s.toList

/-- The candidate list used by canPreviewType (task-attachments.tsx lines
56-61). -/
def previewPrefixes : List String :=
  ["image/", "video/", "application/pdf"]

/-- Models canPreviewType: false for a null fileType, and otherwise true iff
the fileType starts with some entry of previewPrefixes.  Note that the
source uses startsWith for all three entries, including
application/pdf. -/
def canPreviewType (fileType : Option String) : Bool :=
  match fileType with
  | none => false
  | some ft => previewPrefixes.any (fun p => strStartsWith ft p)

/-- The attachment fields that the embedded handlers read. -/
structure AttachmentRec where
  attachment_id : String
  file_name : String
  file_type : Option String
deriving DecidableEq

/-- The two ways handlePreviewClick can react to a click. -/
inductive PreviewOutcome where
  | openModal (att : AttachmentRec)
  | unavailableToast
deriving DecidableEq

/-- Models handlePreviewClick (task-attachments.tsx lines 191-198): open the
preview modal on a previewable file type, otherwise show the
preview-unavailable toast. -/
def handlePreviewClick (att : AttachmentRec) : PreviewOutcome :=
  if canPreviewType att.file_type then
    PreviewOutcome.openModal att
  else
    PreviewOutcome.unavailableToast

/-! ### API-client HTTP model (lib/api/tasks.ts, lib/api/attachments.ts) -/

/-- The fields of a parsed JSON response body that the client reads.  A
field is none when it is absent or not a string. -/
structure JsonBody where
  error : Option String
  message : Option String
deriving DecidableEq

/-- An HTTP response as the client observes it.  The json field is the
outcome of JSON-parsing the body: none models an unparseable body. -/
structure HttpResponse where
  ok : Bool
  status : Nat
  statusText : String
  bodyText : String
  json : Option JsonBody
deriving DecidableEq

/-- Models the JS expression (v || fallback) applied to the error field of
a parsed body: a missing field and the empty string are falsy and select
the fallback. -/
def jsOrElse (v : Option String) (fallback : String) : String :=
  match v with
  | none => fallback
  | some s => if s = "" then fallback else s

/-- Distinguishes an Error thrown by client code from a SyntaxError
propagated out of response.json(). -/
inductive Thrown where
  | appError (msg : String)
  | jsonParseError (msg : String)
deriving DecidableEq

/-- Models the SyntaxError message JSON.parse produces on an unparseable
body: it is derived from the body text alone and never embeds the HTTP
status. -/
def jsonParseErrorMessage (bodyText : String) : String :=
  "Unexpected token in JSON: " ++ bodyText

/-- Models the non-OK branch shared by every function in lib/api/tasks.ts
(for example createTask, lines 71-82): read the body text, try to parse it,
throw the parsed error field when non-empty, and otherwise a message built
from the status, status text and raw body text. -/
def taskErrorMessage (label : String) (r : HttpResponse) : String :=
  match r.json with
  | none =>
      label ++ ": " ++ toString r.status ++ " " ++ r.statusText
        ++ ". Server responded with: " ++ r.bodyText
  | some j =>
      jsOrElse j.error (label ++ ": " ++ toString r.status ++ " " ++ r.statusText)

/-- Models the guarded non-OK branch of uploadAttachment (lines 92-100) and
deleteAttachment (lines 242-250) in lib/api/attachments.ts: response.json()
is wrapped in a try/catch whose catch throws a message built from status
and status text. -/
def attachmentGuardedErrorMessage (label : String) (r : HttpResponse) : String :=
  match r.json with
  | none => label ++ ": " ++ toString r.status ++ " " ++ r.statusText
  | some j =>
      jsOrElse j.error (label ++ ": " ++ toString r.status ++ " " ++ r.statusText)

/-- Models the unguarded non-OK branch of createAttachment
(lib/api/attachments.ts lines 54-57), which getTaskAttachments,
getAllAttachments, getAttachment, updateAttachment,
getAttachmentSignedDownloadUrl, getSignedUploadUrl and
createAttachmentRecord share: response.json() is awaited without a
try/catch, so an unparseable body propagates the parser SyntaxError instead
of an Error built by the client. -/
def createAttachmentThrown (r : HttpResponse) : Thrown :=
  match r.json with
  | none => Thrown.jsonParseError (jsonParseErrorMessage r.bodyText)
  | some j => Thrown.appError (jsOrElse j.error "Failed to create attachment")

/-- Models JS falsiness of a string-or-undefined value: undefined and the
empty string are falsy. -/
def jsFalsy : Option String → Bool
  | none => true
  | some s => s == ""

/-- Models the token prologue shared by every resource function except
deleteTask (for example createTask, tasks.ts lines 54-60): a falsy supplied
token falls back to the ambient session token, and only a falsy session
token throws. -/
def resolveTokenWithSessionFallback (token sessionToken : Option String) :
    Except String String :=
  if jsFalsy token then
    if jsFalsy sessionToken then Except.error "No authentication token"
    else Except.ok (sessionToken.getD "")
  else Except.ok (token.getD "")

/-- Models the token prologue of deleteTask (tasks.ts lines 240-242): a
falsy token throws immediately; the ambient session is never consulted. -/
def resolveTokenDeleteTask (token : Option String) : Except String String :=
  if jsFalsy token then Except.error "Authentication token is required."
  else Except.ok (token.getD "")

/-- Models deleteAttachment (lib/api/attachments.ts lines 226-263): resolve
the token with session fallback, raise the guarded error on a non-OK
status, special-case status 204 to the synthetic success message without
touching the body, and otherwise parse the body, throwing when parsing
fails. -/
def deleteAttachmentModel (token sessionToken : Option String)
    (r : HttpResponse) : Except Thrown JsonBody :=
  match resolveTokenWithSessionFallback token sessionToken with
  | Except.error e => Except.error (Thrown.appError e)
  | Except.ok _ =>
    if !r.ok then
      Except.error (Thrown.appError
        (attachmentGuardedErrorMessage "Failed to delete attachment" r))
    else if r.status = 204 then
      Except.ok { error := none, message := some "Attachment deleted successfully" }
    else
      match r.json with
      | some j => Except.ok j
      | none =>
        Except.error (Thrown.appError
          ("Received OK status (" ++ toString r.status
            ++ ") but failed to parse JSON response."))

/-- Models deleteTask (lib/api/tasks.ts lines 236-274): the token prologue
without session fallback, the tasks.ts non-OK branch, a 204 special case
returning void without touching the body, and otherwise a JSON parse whose
failure throws. -/
def deleteTaskModel (token : Option String) (r : HttpResponse) :
    Except Thrown Unit :=
  match resolveTokenDeleteTask token with
  | Except.error e => Except.error (Thrown.appError e)
  | Except.ok _ =>
    if !r.ok then
      Except.error (Thrown.appError (taskErrorMessage "Failed to delete task" r))
    else if r.status = 204 then
      Except.ok ()
    else
      match r.json with
      | some _ => Except.ok ()
      | none =>
        Except.error (Thrown.appError
          ("Received OK status (" ++ toString r.status
            ++ ") but failed to parse JSON response."))

/-! ### Upload flow (components/task-attachments.tsx, handleFileUpload) -/

/-- The externally visible actions of one upload run. -/
inductive UploadStep where
  | getSignedUrl
  | putToGcs
  | createRecord
  | refetchList
deriving DecidableEq

/-- The environment one upload run interacts with: the outcome of the
signed-URL request, whether the direct storage PUT response is OK, the
outcome of the metadata-registration call, and the list a refetch would
return. -/
structure UploadEnv where
  signedUrl : Except String (String × String)
  gcsOk : Bool
  record : Except String Unit
  refetched : List AttachmentRec

/-- The observable result of one upload run: which steps ran, the toast
outcome, and the final attachment-list state. -/
structure UploadRun where
  steps : List UploadStep
  result : Except String Unit
  attachments : List AttachmentRec

/-- Models handleFileUpload (task-attachments.tsx lines 117-164): an early
toast when no file is selected or no token is present; otherwise step 1
requests the signed URL, step 2 PUTs the file (a non-OK response throws
before step 3), step 3 registers the record, and only after step 3 succeeds
is the attachment list refetched.  Every thrown error is caught and
surfaced as a failure toast, leaving the attachment list untouched. -/
def handleFileUpload (hasFile hasToken : Bool) (env : UploadEnv)
    (attachments0 : List AttachmentRec) : UploadRun :=
  if !(hasFile && hasToken) then
    { steps := [], result := Except.error "Please select a file to upload.",
      attachments := attachments0 }
  else
    match env.signedUrl with
    | Except.error e =>
      { steps := [UploadStep.getSignedUrl],
        result := Except.error ("Failed to upload attachment: " ++ e),
        attachments := attachments0 }
    | Except.ok _ =>
      if !env.gcsOk then
        { steps := [UploadStep.getSignedUrl, UploadStep.putToGcs],
          result := Except.error
            "Failed to upload attachment: Failed to upload file to storage.",
          attachments := attachments0 }
      else
        match env.record with
        | Except.error e =>
          { steps := [UploadStep.getSignedUrl, UploadStep.putToGcs,
              UploadStep.createRecord],
            result := Except.error ("Failed to upload attachment: " ++ e),
            attachments := attachments0 }
        | Except.ok _ =>
          { steps := [UploadStep.getSignedUrl, UploadStep.putToGcs,
              UploadStep.createRecord, UploadStep.refetchList],
            result := Except.ok (),
            attachments := env.refetched }

/-! ### Two-phase delete confirmation (components/task-attachments.tsx) -/

/-- The component state confirmDelete reads and writes. -/
structure AttachmentsUiState where
  deletingAttachmentId : Option String
  deleteAlertOpen : Bool
  attachments : List AttachmentRec
deriving DecidableEq

/-- Models confirmDelete (task-attachments.tsx lines 171-189): an early
return when no pending id or no token is present; otherwise the delete call
runs, a success refetches the list, an error only toasts, and the finally
block always clears the pending id and closes the prompt. -/
def confirmDelete (token : Option String) (deleteResult : Except String Unit)
    (refetched : List AttachmentRec) (s : AttachmentsUiState) :
    AttachmentsUiState :=
  if jsFalsy s.deletingAttachmentId || jsFalsy token then s
  else
    let s1 := match deleteResult with
      | Except.ok _ => { s with attachments := refetched }
      | Except.error _ => s
    { s1 with deletingAttachmentId := none, deleteAlertOpen := false }

/-! ### Registration request (src/unnamed/part_002, userRegister) -/

/-- The request userRegister issues, with the serialised JSON body fields
listed explicitly. -/
structure RegisterRequest where
  url : String
  method : String
  contentType : String
  bodyName : String
  bodyEmail : String
  bodyPassword : String
deriving DecidableEq

/-- Models userRegister (src/unnamed/part_002): the function receives name,
telephone, address, email and password, but the request it issues POSTs a
JSON body containing only name, email and password. -/
def userRegisterRequest (apiUrl name telephone address email password : String) :
    RegisterRequest :=
  { url := apiUrl ++ "/auth/register"
    method := "POST"
    contentType := "application/json"
    bodyName := name
    bodyEmail := email
    bodyPassword := password }

/-! ### Project navigation dedup (src/unnamed/part_001, ProjectNav) -/

/-- The project fields ProjectNav reads. -/
structure Project where
  project_id : String
  project_name : String
deriving DecidableEq

/-- The index of the first element of items whose project_id equals the
project_id of q: the findIndex subterm of the uniqueItems filter in
ProjectNav. -/
def firstIdxOf (items : List Project) (q : Project) : Nat :=
  items.findIdx (fun t => t.project_id == q.project_id)

/-- Models the uniqueItems computation of ProjectNav (src/unnamed/part_001
lines 170-174): keep each element exactly when its index equals the index
of the first element with the same project_id. -/
def uniqueItems (items : List Project) : List Project :=
  (items.enum.filter (fun p => firstIdxOf items p.2 == p.1)).map Prod.snd

end TaskMgmt

namespace TaskMgmt

/-! ### Helper lemmas about the pagination window -/

theorem collapseEllipses_count_num (l : List PageItem) (b : Bool) (n : Nat) :
    (collapseEllipses l b).count (PageItem.num n) = l.count (PageItem.num n) := by
  induction l generalizing b with
  | nil => cases b <;> rfl
  | cons a rest ih =>
    cases a with
    | num m =>
      by_cases hmn : PageItem.num m = PageItem.num n
      · cases b <;> simp [collapseEllipses, hmn, List.count_cons_self, ih]
      · cases b <;> simp [collapseEllipses, List.count_cons_of_ne (fun h => hmn h.symm), ih]
    | dots =>
      have hne : PageItem.num n ≠ PageItem.dots := by simp
      cases b with
      | true => simp [collapseEllipses, ih, List.count_cons_of_ne hne]
      | false => simp [collapseEllipses, ih, List.count_cons_of_ne hne]

theorem collapseEllipses_mem_num (l : List PageItem) (b : Bool) (n : Nat) :
    PageItem.num n ∈ collapseEllipses l b ↔ PageItem.num n ∈ l := by
  induction l generalizing b with
  | nil => cases b <;> simp [collapseEllipses]
  | cons a rest ih =>
    cases a with
    | num m => cases b <;> simp [collapseEllipses, ih]
    | dots =>
      cases b with
      | true => simp [collapseEllipses, ih]
      | false => simp [collapseEllipses, ih]

theorem collapseEllipses_true_ne_dots_cons (l : List PageItem) :
    ∀ rest : List PageItem, collapseEllipses l true ≠ PageItem.dots :: rest := by
  induction l with
  | nil => intro rest h; exact absurd h (by simp [collapseEllipses])
  | cons a l ih =>
    intro rest h
    cases a with
    | num m => simp [collapseEllipses] at h
    | dots => exact ih rest (by simpa [collapseEllipses] using h)

theorem chain'_collapseEllipses (l : List PageItem) (b : Bool) :
    List.Chain' (fun a c => ¬(a = PageItem.dots ∧ c = PageItem.dots))
      (collapseEllipses l b) := by
  induction l generalizing b with
  | nil => cases b <;> simp [collapseEllipses]
  | cons a rest ih =>
    cases a with
    | num m =>
      have hcoll : collapseEllipses (PageItem.num m :: rest) b
          = PageItem.num m :: collapseEllipses rest false := by
        cases b <;> rfl
      rw [hcoll]
      refine List.chain'_cons'.mpr ⟨?_, ih false⟩
      intro y _
      simp
    | dots =>
      cases b with
      | true => simpa [collapseEllipses] using ih true
      | false =>
        have hcoll : collapseEllipses (PageItem.dots :: rest) false
            = PageItem.dots :: collapseEllipses rest true := rfl
        rw [hcoll]
        refine List.chain'_cons'.mpr ⟨?_, ih true⟩
        intro y hy
        intro hcontra
        obtain ⟨-, hy_dots⟩ := hcontra
        cases hrec : collapseEllipses rest true with
        | nil => rw [hrec] at hy; simp at hy
        | cons z zs =>
          rw [hrec] at hy
          simp at hy
          subst hy
          subst hy_dots
          exact collapseEllipses_true_ne_dots_cons rest zs hrec

theorem pageEntry_num_inj (p T i m : Nat)
    (h : pageEntry p T i = some (PageItem.num m)) : m = i := by
  unfold pageEntry at h
  split at h
  · simp at h; omega
  · split at h <;> simp at h

theorem count_num_filterMap (p T k : Nat) (l : List Nat) :
    (l.filterMap (pageEntry p T)).count (PageItem.num k)
      = if pageEntry p T k = some (PageItem.num k) then l.count k else 0 := by
  induction l with
  | nil => simp
  | cons a l ih =>
    by_cases hak : a = k
    · subst hak
      by_cases hf : pageEntry p T a = some (PageItem.num a)
      · simp [List.filterMap_cons, hf, List.count_cons_self, ih]
      · rcases h : pageEntry p T a with _ | x
        · simp [List.filterMap_cons, h, ih, hf]
        · cases x with
          | num m =>
            have hm := pageEntry_num_inj p T a m h
            subst hm
            exact absurd h hf
          | dots =>
            have hne : PageItem.num a ≠ PageItem.dots := by simp
            simp [List.filterMap_cons, h, ih, hf, List.count_cons_of_ne hne]
    · have hanum : PageItem.num k ≠ PageItem.num a := by simp [Ne.symm hak]
      rcases h : pageEntry p T a with _ | x
      · simp [List.filterMap_cons, h, ih, List.count_cons_of_ne (Ne.symm hak)]
      · cases x with
        | num m =>
          have hm := pageEntry_num_inj p T a m h
          subst hm
          simp [List.filterMap_cons, h, ih, List.count_cons_of_ne hanum,
            List.count_cons_of_ne (Ne.symm hak)]
        | dots =>
          have hne : PageItem.num k ≠ PageItem.dots := by simp
          simp [List.filterMap_cons, h, ih, List.count_cons_of_ne hne,
            List.count_cons_of_ne (Ne.symm hak)]

theorem count_range'_one (k T : Nat) (h1 : 1 ≤ k) (h2 : k ≤ T) :
    List.count k (List.range' 1 T) = 1 := by
  refine List.count_eq_one_of_mem (List.nodup_range' 1 T) ?_
  simp
  omega

/-- C1: for every valid input (page, pageSize, total) with total > pageSize,
the page-number window rendered by the task-list pagination contains page 1
exactly once, contains the last page (ceil(total/pageSize)) exactly once,
contains the current page, contains every page within 2 of the current page,
and never contains two adjacent ellipsis markers. -/
theorem c1_page_window_properties (page pageSize total : Nat)
    (hps : 1 ≤ pageSize) (hts : pageSize < total)
    (hp1 : 1 ≤ page) (hpT : page ≤ totalPagesOf total pageSize) :
    (computePageWindow page pageSize total).count (PageItem.num 1) = 1 ∧
    (computePageWindow page pageSize total).count
        (PageItem.num (totalPagesOf total pageSize)) = 1 ∧
    PageItem.num page ∈ computePageWindow page pageSize total ∧
    (∀ j, 1 ≤ j → j ≤ totalPagesOf total pageSize → page ≤ j + 2 → j ≤ page + 2 →
      PageItem.num j ∈ computePageWindow page pageSize total) ∧
    List.Chain' (fun a c => ¬(a = PageItem.dots ∧ c = PageItem.dots))
      (computePageWindow page pageSize total) := by
  set T := totalPagesOf total pageSize with hT
  have hT1 : 1 ≤ T := le_trans hp1 hpT
  have hmem : ∀ j, 1 ≤ j → j ≤ T → page ≤ j + 2 → j ≤ page + 2 →
      PageItem.num j ∈ computePageWindow page pageSize total := by
    intro j hj1 hj2 hj3 hj4
    unfold computePageWindow
    rw [collapseEllipses_mem_num]
    unfold pageNumbers
    rw [List.mem_filterMap]
    refine ⟨j, ?_, ?_⟩
    · simp only [List.mem_range'_1]
      omega
    · unfold pageEntry
      rw [if_pos (Or.inr (Or.inr ⟨hj3, hj4⟩))]
  refine ⟨?_, ?_, hmem page hp1 hpT (by omega) (by omega), hmem, ?_⟩
  · unfold computePageWindow
    rw [collapseEllipses_count_num]
    unfold pageNumbers
    rw [count_num_filterMap]
    rw [if_pos (by unfold pageEntry; rw [if_pos (Or.inl rfl)])]
    exact count_range'_one 1 T le_rfl hT1
  · unfold computePageWindow
    rw [collapseEllipses_count_num]
    unfold pageNumbers
    rw [count_num_filterMap]
    rw [if_pos (by unfold pageEntry; rw [if_pos (Or.inr (Or.inl rfl))])]
    exact count_range'_one T T hT1 le_rfl
  · exact chain'_collapseEllipses _ _

/-- Witness for C1: the page-window properties instantiated at the concrete
input page 5, pageSize 10, total 200. -/
theorem c1_page_window_properties_witness :
    (computePageWindow 5 10 200).count (PageItem.num 1) = 1 ∧
    PageItem.num 5 ∈ computePageWindow 5 10 200 :=
  ⟨(c1_page_window_properties 5 10 200 (by decide) (by decide) (by decide)
      (by decide)).1,
   (c1_page_window_properties 5 10 200 (by decide) (by decide) (by decide)
      (by decide)).2.2.1⟩

/-- C8: for page 5, pageSize 10, total 200 (20 total pages), the pagination
window computation yields exactly the nine-entry sequence 1, ellipsis,
3, 4, 5, 6, 7, ellipsis, 20. -/
theorem c8_example_window :
    computePageWindow 5 10 200 =
      [PageItem.num 1, PageItem.dots, PageItem.num 3, PageItem.num 4,
       PageItem.num 5, PageItem.num 6, PageItem.num 7, PageItem.dots,
       PageItem.num 20] := by
  decide

/-- C2 counterexample: the file type application/pdfXX neither equals
application/pdf nor starts with image/ or video/, yet canPreviewType
accepts it and handlePreviewClick opens the preview modal, because the
source tests startsWith for all three candidates. -/
theorem c2_preview_counterexample :
    canPreviewType (some "application/pdfXX") = true ∧
    "application/pdfXX" ≠ "application/pdf" ∧
    strStartsWith "application/pdfXX" "image/" = false ∧
    strStartsWith "application/pdfXX" "video/" = false ∧
    handlePreviewClick
        { attachment_id := "a1", file_name := "f", file_type := some "application/pdfXX" }
      = PreviewOutcome.openModal
        { attachment_id := "a1", file_name := "f", file_type := some "application/pdfXX" } := by
  decide

/-- C2 (amended): preview eligibility holds iff the file type is non-null
and starts with image/, video/ or application/pdf, a prefix match for all
three candidates; only then does handlePreviewClick open the preview modal,
and in every other case it shows the preview-unavailable toast. -/
theorem c2_preview_eligibility_amended (att : AttachmentRec) :
    (handlePreviewClick att = PreviewOutcome.openModal att ↔
      ∃ s, att.file_type = some s ∧
        ("image/".toList <+: s.toList ∨ "video/".toList <+: s.toList ∨
         "application/pdf".toList <+: s.toList)) ∧
    (handlePreviewClick att = PreviewOutcome.openModal att ∨
     handlePreviewClick att = PreviewOutcome.unavailableToast) := by
  constructor
  · unfold handlePreviewClick canPreviewType previewPrefixes strStartsWith
    cases hft : att.file_type with
    | none => simp
    | some s =>
      simp [or_assoc]
      tauto
  · unfold handlePreviewClick
    by_cases h : canPreviewType att.file_type = true
    · exact Or.inl (by simp [h])
    · exact Or.inr (by simp [Bool.not_eq_true] at h; simp [h])

/-- C3 counterexample: createAttachment on a non-OK 500 response whose body
is not parseable JSON propagates the JSON parse exception, and that
exception message does not include the status code. -/
theorem c3_error_counterexample :
    createAttachmentThrown
        { ok := false, status := 500, statusText := "Internal Server Error",
          bodyText := "<html>", json := none }
      = Thrown.jsonParseError "Unexpected token in JSON: <html>" ∧
    ¬ ("500".toList <:+: "Unexpected token in JSON: <html>".toList) := by
  constructor
  · decide
  · decide

/-- C3 (amended): for a non-OK response, the tasks.ts functions and the
guarded attachments functions (uploadAttachment, deleteAttachment) throw
the parsed error field when it is a non-empty string and, when the body is
not parseable JSON, throw an Error whose message includes the HTTP status
code; the remaining attachments functions, modelled by
createAttachmentThrown, also throw the non-empty error field, but on an
unparseable body they propagate the JSON parse exception built from the
body text alone. -/
theorem c3_error_message_amended (label : String) (r : HttpResponse)
    (hok : r.ok = false) :
    (∀ j e, r.json = some j → j.error = some e → e ≠ "" →
      taskErrorMessage label r = e ∧
      attachmentGuardedErrorMessage label r = e ∧
      createAttachmentThrown r = Thrown.appError e) ∧
    (r.json = none →
      ((toString r.status).toList <:+: (taskErrorMessage label r).toList ∧
       (toString r.status).toList <:+: (attachmentGuardedErrorMessage label r).toList ∧
       createAttachmentThrown r =
         Thrown.jsonParseError (jsonParseErrorMessage r.bodyText))) := by
  constructor
  · intro j e hj he hne
    refine ⟨?_, ?_, ?_⟩
    · unfold taskErrorMessage
      rw [hj]
      simp [jsOrElse, he, hne]
    · unfold attachmentGuardedErrorMessage
      rw [hj]
      simp [jsOrElse, he, hne]
    · unfold createAttachmentThrown
      rw [hj]
      simp [jsOrElse, he, hne]
  · intro hnone
    refine ⟨?_, ?_, ?_⟩
    · unfold taskErrorMessage
      rw [hnone]
      refine ⟨(label ++ ": ").toList,
        (" " ++ r.statusText ++ ". Server responded with: " ++ r.bodyText).toList, ?_⟩
      simp [String.toList, String.data_append, List.append_assoc]
    · unfold attachmentGuardedErrorMessage
      rw [hnone]
      refine ⟨(label ++ ": ").toList, (" " ++ r.statusText).toList, ?_⟩
      simp [String.toList, String.data_append, List.append_assoc]
    · unfold createAttachmentThrown
      rw [hnone]

/-- Witness for C3 (amended): the amended statement instantiated at a
concrete 418 response with an unparseable body. -/
theorem c3_error_message_amended_witness :
    ("418".toList <:+:
      (taskErrorMessage "Failed to create task"
        { ok := false, status := 418, statusText := "Teapot",
          bodyText := "<body>", json := none }).toList) ∧
    createAttachmentThrown
        { ok := false, status := 418, statusText := "Teapot",
          bodyText := "<body>", json := none }
      = Thrown.jsonParseError (jsonParseErrorMessage "<body>") :=
  ⟨((c3_error_message_amended "Failed to create task"
      { ok := false, status := 418, statusText := "Teapot",
        bodyText := "<body>", json := none } rfl).2 rfl).1,
   ((c3_error_message_amended "Failed to create task"
      { ok := false, status := 418, statusText := "Teapot",
        bodyText := "<body>", json := none } rfl).2 rfl).2.2⟩

/-- C4 counterexample: deleteTask called without a token throws immediately
with its own message, although a session token exists that every other
resource function would have fallen back to. -/
theorem c4_token_counterexample :
    resolveTokenDeleteTask none
      = Except.error "Authentication token is required." ∧
    resolveTokenWithSessionFallback none (some "session-token")
      = Except.ok "session-token" ∧
    deleteTaskModel none
        { ok := true, status := 204, statusText := "No Content",
          bodyText := "", json := none }
      = Except.error (Thrown.appError "Authentication token is required.") :=
  ⟨rfl, rfl, rfl⟩

/-- C4 (amended): every resource function except deleteTask falls back to
the session token when called without one and throws only when the session
has none either; deleteTask instead throws immediately whenever its token
argument is falsy, never consulting the session. -/
theorem c4_token_fallback_amended (token sessionToken : Option String) :
    (jsFalsy token = false →
      resolveTokenWithSessionFallback token sessionToken = Except.ok (token.getD "") ∧
      resolveTokenDeleteTask token = Except.ok (token.getD "")) ∧
    (jsFalsy token = true → jsFalsy sessionToken = false →
      resolveTokenWithSessionFallback token sessionToken
        = Except.ok (sessionToken.getD "")) ∧
    (jsFalsy token = true → jsFalsy sessionToken = true →
      resolveTokenWithSessionFallback token sessionToken
        = Except.error "No authentication token") ∧
    (jsFalsy token = true →
      resolveTokenDeleteTask token
        = Except.error "Authentication token is required.") := by
  refine ⟨?_, ?_, ?_, ?_⟩
  · intro h
    constructor
    · unfold resolveTokenWithSessionFallback
      rw [h]
      simp
    · unfold resolveTokenDeleteTask
      rw [h]
      simp
  · intro h1 h2
    unfold resolveTokenWithSessionFallback
    rw [h1, h2]
    simp
  · intro h1 h2
    unfold resolveTokenWithSessionFallback
    rw [h1, h2]
    simp
  · intro h
    unfold resolveTokenDeleteTask
    rw [h]
    simp

/-- Witness for C4 (amended): a missing token with an available session
token resolves to the session token for the fallback prologue, while
deleteTask throws. -/
theorem c4_token_fallback_amended_witness :
    resolveTokenWithSessionFallback none (some "tok") = Except.ok "tok" ∧
    resolveTokenDeleteTask none = Except.error "Authentication token is required." :=
  ⟨(c4_token_fallback_amended none (some "tok")).2.1 rfl rfl,
   (c4_token_fallback_amended none (some "tok")).2.2.2 rfl⟩

/-- C5: in every upload run in which the direct storage PUT (step 2)
returns a non-OK response, the metadata-registration call (step 3) never
runs, the whole operation fails with the storage-failure toast, and the
attachment list is left unchanged. -/
theorem c5_upload_gcs_failure (env : UploadEnv)
    (attachments0 : List AttachmentRec) (u g : String)
    (h1 : env.signedUrl = Except.ok (u, g)) (h2 : env.gcsOk = false) :
    UploadStep.createRecord ∉ (handleFileUpload true true env attachments0).steps ∧
    (handleFileUpload true true env attachments0).result =
      Except.error "Failed to upload attachment: Failed to upload file to storage." ∧
    (handleFileUpload true true env attachments0).attachments = attachments0 := by
  unfold handleFileUpload
  rw [h1]
  simp [h2]

/-- Witness for C5: the upload run at a concrete environment whose storage
PUT fails. -/
theorem c5_upload_gcs_failure_witness :
    UploadStep.createRecord ∉
      (handleFileUpload true true
        { signedUrl := Except.ok ("u", "g"), gcsOk := false,
          record := Except.ok (), refetched := [] } []).steps ∧
    (handleFileUpload true true
        { signedUrl := Except.ok ("u", "g"), gcsOk := false,
          record := Except.ok (), refetched := [] } []).result =
      Except.error "Failed to upload attachment: Failed to upload file to storage." ∧
    (handleFileUpload true true
        { signedUrl := Except.ok ("u", "g"), gcsOk := false,
          record := Except.ok (), refetched := [] } []).attachments = [] :=
  c5_upload_gcs_failure
    { signedUrl := Except.ok ("u", "g"), gcsOk := false,
      record := Except.ok (), refetched := [] } [] "u" "g" rfl rfl

/-- C6: a 204 response to either delete operation resolves to the synthetic
success value for every JSON-parse outcome of the body, including an
unparseable body, so the body is never parsed: deleteAttachment yields the
synthetic success message, deleteTask yields void. -/
theorem c6_delete_204 (token sessionToken : Option String) (r : HttpResponse)
    (htok : jsFalsy token = false) (hok : r.ok = true) (h204 : r.status = 204) :
    deleteAttachmentModel token sessionToken r =
      Except.ok { error := none, message := some "Attachment deleted successfully" } ∧
    deleteTaskModel token r = Except.ok () := by
  unfold deleteAttachmentModel deleteTaskModel
    resolveTokenWithSessionFallback resolveTokenDeleteTask
  rw [htok]
  simp [hok, h204]

/-- Witness for C6: the 204 behaviour at a concrete response whose body is
not even parseable JSON. -/
theorem c6_delete_204_witness :
    deleteAttachmentModel (some "tok") none
        { ok := true, status := 204, statusText := "No Content",
          bodyText := "", json := none } =
      Except.ok { error := none, message := some "Attachment deleted successfully" } ∧
    deleteTaskModel (some "tok")
        { ok := true, status := 204, statusText := "No Content",
          bodyText := "", json := none } = Except.ok () :=
  c6_delete_204 (some "tok") none
    { ok := true, status := 204, statusText := "No Content",
      bodyText := "", json := none } rfl rfl rfl

/-- C7: whenever confirmDelete actually performs the delete call (a pending
attachment id and a token are present), the pending id is cleared and the
confirmation prompt is closed afterwards, both when the call succeeds and
when it throws. -/
theorem c7_confirm_delete_clears (token : Option String)
    (deleteResult : Except String Unit) (refetched : List AttachmentRec)
    (s : AttachmentsUiState)
    (hid : jsFalsy s.deletingAttachmentId = false)
    (htok : jsFalsy token = false) :
    (confirmDelete token deleteResult refetched s).deletingAttachmentId = none ∧
    (confirmDelete token deleteResult refetched s).deleteAlertOpen = false := by
  unfold confirmDelete
  rw [hid, htok]
  cases deleteResult <;> simp

/-- Witness for C7: the cleanup behaviour at a concrete state whose delete
call throws. -/
theorem c7_confirm_delete_clears_witness :
    (confirmDelete (some "tok") (Except.error "boom") []
        { deletingAttachmentId := some "a1", deleteAlertOpen := true,
          attachments := [] }).deletingAttachmentId = none ∧
    (confirmDelete (some "tok") (Except.error "boom") []
        { deletingAttachmentId := some "a1", deleteAlertOpen := true,
          attachments := [] }).deleteAlertOpen = false :=
  c7_confirm_delete_clears (some "tok") (Except.error "boom") []
    { deletingAttachmentId := some "a1", deleteAlertOpen := true,
      attachments := [] } rfl rfl

/-- C9: two invocations of userRegister that agree on name, email and
password but differ in telephone and address issue identical HTTP requests,
because the serialised body contains only name, email and password. -/
theorem c9_register_ignores_telephone_address
    (apiUrl name email password t1 a1 t2 a2 : String) :
    userRegisterRequest apiUrl name t1 a1 email password =
      userRegisterRequest apiUrl name t2 a2 email password := rfl

/-! ### Helper lemmas about the ProjectNav dedup -/

theorem enum_fst_pairwise (items : List Project) :
    items.enum.Pairwise (fun x y : Nat × Project => x.1 ≠ y.1) := by
  have hnodup : (items.enum.map Prod.fst).Nodup := by
    have h : items.enum = List.enumFrom 0 items := rfl
    rw [h, List.enumFrom_map_fst 0 items]
    exact List.nodup_range' 0 items.length
  exact List.pairwise_map.mp hnodup

theorem firstIdxOf_congr (items : List Project) (q r : Project)
    (h : q.project_id = r.project_id) : firstIdxOf items q = firstIdxOf items r := by
  unfold firstIdxOf
  simp only [h]

theorem mem_uniqueItems_keep (items : List Project) (x : Nat × Project)
    (hx : x ∈ items.enum.filter (fun p => firstIdxOf items p.2 == p.1)) :
    firstIdxOf items x.2 = x.1 := by
  have h := (List.mem_filter.mp hx).2
  simpa using h

/-- C10: the list ProjectNav renders is the input filtered down to the
first occurrence of each project_id: the rendered project_ids are pairwise
distinct, the rendered list is a sublist of the input (so input order is
preserved), every rendered element sits at the first index holding its
project_id, and every project_id of the input is still rendered. -/
theorem c10_unique_items_dedup (items : List Project) :
    ((uniqueItems items).map Project.project_id).Nodup ∧
    List.Sublist (uniqueItems items) items ∧
    (∀ q ∈ uniqueItems items, items[firstIdxOf items q]? = some q) ∧
    (∀ p ∈ items, ∃ q ∈ uniqueItems items, q.project_id = p.project_id) := by
  refine ⟨?_, ?_, ?_, ?_⟩
  · -- pairwise-distinct project ids
    unfold uniqueItems
    rw [List.map_map]
    have hfil : (items.enum.filter
        (fun p => firstIdxOf items p.2 == p.1)).Pairwise
          (fun x y : Nat × Project => x.1 ≠ y.1) :=
      List.Pairwise.sublist (List.filter_sublist _) (enum_fst_pairwise items)
    have hfil2 : (items.enum.filter
        (fun p => firstIdxOf items p.2 == p.1)).Pairwise
          (fun x y : Nat × Project =>
            (Project.project_id ∘ Prod.snd) x ≠ (Project.project_id ∘ Prod.snd) y) := by
      refine List.Pairwise.imp_of_mem ?_ hfil
      intro a b ha hb hne hpid
      apply hne
      have hka := mem_uniqueItems_keep items a ha
      have hkb := mem_uniqueItems_keep items b hb
      have hcongr := firstIdxOf_congr items a.2 b.2 hpid
      rw [← hka, ← hkb, hcongr]
    exact List.pairwise_map.mpr hfil2
  · -- sublist of the input
    have h1 : List.Sublist
        (items.enum.filter (fun p => firstIdxOf items p.2 == p.1)) items.enum :=
      List.filter_sublist _
    have h2 := h1.map Prod.snd
    have h3 : items.enum.map Prod.snd = items := by
      have h : items.enum = List.enumFrom 0 items := rfl
      rw [h, List.enumFrom_map_snd 0 items]
    rw [h3] at h2
    exact h2
  · -- every kept element is the first with its project_id
    intro q hq
    obtain ⟨x, hxmem, hxsnd⟩ := List.mem_map.mp hq
    have hxen := (List.mem_filter.mp hxmem).1
    have hidx : firstIdxOf items x.2 = x.1 := mem_uniqueItems_keep items x hxmem
    have hget : items[x.1]? = some x.2 := List.mem_enum_iff_getElem?.mp hxen
    subst hxsnd
    rw [hidx]
    exact hget
  · -- every input project_id survives
    intro p hp
    have hex : ∃ x ∈ items, (fun t => t.project_id == p.project_id) x :=
      ⟨p, hp, by simp⟩
    have hlt0 : items.findIdx (fun t => t.project_id == p.project_id) < items.length :=
      List.findIdx_lt_length_of_exists hex
    have hlt : firstIdxOf items p < items.length := hlt0
    have hq := List.findIdx_getElem (w := hlt0)
    have hqp : (items.get ⟨firstIdxOf items p, hlt⟩).project_id = p.project_id := by
      simpa using hq
    refine ⟨items.get ⟨firstIdxOf items p, hlt⟩, ?_, hqp⟩
    unfold uniqueItems
    refine List.mem_map.mpr
      ⟨(firstIdxOf items p, items.get ⟨firstIdxOf items p, hlt⟩), ?_, rfl⟩
    refine List.mem_filter.mpr ⟨?_, ?_⟩
    · refine List.mem_enum_iff_getElem?.mpr ?_
      simp [List.getElem?_eq_getElem hlt]
    · have hcongr :=
        firstIdxOf_congr items (items.get ⟨firstIdxOf items p, hlt⟩) p hqp
      show (firstIdxOf items (items.get ⟨firstIdxOf items p, hlt⟩)
        == firstIdxOf items p) = true
      rw [hcongr]
      simp

/-- Witness for C10: the dedup properties instantiated at a concrete input
list carrying a duplicated project_id. -/
theorem c10_unique_items_dedup_witness :
    ((uniqueItems [{ project_id := "p1", project_name := "A" },
        { project_id := "p2", project_name := "B" },
        { project_id := "p1", project_name := "C" }]).map Project.project_id).Nodup ∧
    List.Sublist
      (uniqueItems [{ project_id := "p1", project_name := "A" },
        { project_id := "p2", project_name := "B" },
        { project_id := "p1", project_name := "C" }])
      [{ project_id := "p1", project_name := "A" },
        { project_id := "p2", project_name := "B" },
        { project_id := "p1", project_name := "C" }] :=
  ⟨(c10_unique_items_dedup
      [{ project_id := "p1", project_name := "A" },
        { project_id := "p2", project_name := "B" },
        { project_id := "p1", project_name := "C" }]).1,
   (c10_unique_items_dedup
      [{ project_id := "p1", project_name := "A" },
        { project_id := "p2", project_name := "B" },
        { project_id := "p1", project_name := "C" }]).2.1⟩

end TaskMgmt
